import Mathlib

/-!
Verification of the elasticdl client submission pipeline
(`elasticdl/python/client/client.py`) against its specification.

The file embeds the pure data flow of the client shallowly: the argparse result
becomes a structure `Args`, `os.path` operations become string functions,
the two Dockerfile templates become rendered-string functions, the build
step and the `docker build` event loop become functions producing an
explicit record of outputs, created/removed paths and errors, and
`_submit` becomes a function from `Args` to `Except String LaunchRequest`.
-/

namespace ElasticDL

/-- Fixed in-image root path (constant `MODEL_ROOT_PATH` in client.py). -/
def MODEL_ROOT_PATH : String := "/model"

/-- Python truthiness of an optional string, as used by `if image_base:`,
`all([args.volume_name, args.mount_path])` and the master-resource-limit
default.  argparse yields `None` for an absent option; both `None` and the
empty string are falsy in Python. -/
def truthy : Option String → Bool
  | none => false
  | some s => !(s == "")

/-- Characters after the last slash of the list.  This is the character-level
computation of `os.path.basename` for POSIX paths: everything following the
final separator (the whole string when no separator occurs, empty when the
path ends in a separator). -/
def basenameChars (l : List Char) : List Char :=
  l.foldl (fun acc c => if c = '/' then [] else acc ++ [c]) []

/-- `os.path.basename` on POSIX paths. -/
def basename (p : String) : String := String.mk (basenameChars p.data)

/-- Whether a string starts with the separator, as `b.startswith('/')`
inside `os.path.join`. -/
def headIsSlash (s : String) : Bool :=
  match s.data with
  | [] => false
  | c :: _ => c == '/'

/-- Whether a string ends with the separator, as `a.endswith('/')`
inside `os.path.join`. -/
def lastIsSlash (s : String) : Bool :=
  match s.data.getLast? with
  | none => false
  | some c => c == '/'

/-- `os.path.join(a, b)` for two POSIX components: an absolute second
component replaces the first, otherwise the pieces are glued with a single
separator unless the first already ends in one (or is empty). -/
def pyJoin (a b : String) : String :=
  if headIsSlash b then b
  else if a == "" || lastIsSlash a then a ++ b
  else a ++ "/" ++ b

/-- `_model_def_in_docker` from client.py:
`os.path.join(MODEL_ROOT_PATH, os.path.basename(model_def))`. -/
def model_def_in_docker (model_def : String) : String :=
  pyJoin MODEL_ROOT_PATH (basename model_def)

/-- The options structure produced by the `train` subparser
(`_add_train_params`).  Options declared without a default are `Option
String` (argparse yields `None`); options with a CLI default are plain
strings.  `namespace` is a Lean keyword, hence the trailing underscore. -/
structure Args where
  model_def : String
  push_image : Bool
  image_name : String
  image_base : Option String
  job_name : String
  master_resource_request : String
  master_resource_limit : Option String
  worker_resource_request : String
  worker_resource_limit : String
  master_pod_priority : Option String
  volume_name : Option String
  mount_path : Option String
  image_pull_policy : String
  restart_policy : String
  extra_pypi_index : Option String
  namespace_ : String
  tensorboard_log_dir : String
deriving DecidableEq, Repr

/-- The custom-base Dockerfile template of `_build_docker_image`, already
rendered by Python `str.format`: the fields `IMAGE_BASE`, `SOURCE_MODEL_DEF`,
`TARGET_MODEL_DEF` and `MODEL_ROOT_PATH` are replaced by their values, and
every other character of the template — including the dollar sign that
precedes the `MODEL_ROOT_PATH` field on the `ENV` line — is copied
verbatim. -/
def dockerTemplateCustomRendered (ib smd tmd mrp : String) : String :=
  "\nFROM " ++ ib ++ " as base\nCOPY " ++ smd ++ " " ++ tmd ++
  "\nENV PYTHONPATH=/elasticdl:$" ++ mrp ++ "\n"

/-- The default-base Dockerfile template of `_build_docker_image`, rendered
by `str.format` in the same way.  The backslash-newline pairs inside the
Python triple-quoted string are line continuations, so the final `RUN if`
instruction is one line whose continuation parts carry their four-space
indent. -/
def dockerTemplateDefaultRendered (smd tmd mrp : String) : String :=
  "\nFROM tensorflow/tensorflow:2.0.0b0-py3 as base\n\nCOPY elasticdl /elasticdl\nRUN pip install -r elasticdl/requirements.txt\nRUN make -f elasticdl/Makefile\nCOPY "
  ++ smd ++ " " ++ tmd ++ "\nENV PYTHONPATH=/elasticdl:$" ++ mrp ++
  "\n\nRUN if [ -f " ++ tmd ++ "/requirements.txt ] ;    then pip install -r "
  ++ tmd ++ "/requirements.txt ;    else echo no " ++ tmd ++
  "/requirements.txt found ;    fi\n"

/-- The Dockerfile text `_build_docker_image` writes for a directory model
def: template choice by truthiness of `image_base`, with
`SOURCE_MODEL_DEF = basename(m_def)` and
`TARGET_MODEL_DEF = join(MODEL_ROOT_PATH, basename(m_def))`.  The
`extra_pypi_index` parameter is accepted by the source function and is not
referenced by either template, which the embedding reproduces. -/
def renderBuildFile (image_base extra_pypi_index : Option String)
    (m_def : String) : String :=
  let smd := basename m_def
  let tmd := pyJoin MODEL_ROOT_PATH (basename m_def)
  if truthy image_base then
    dockerTemplateCustomRendered (image_base.getD "") smd tmd MODEL_ROOT_PATH
  else
    dockerTemplateDefaultRendered smd tmd MODEL_ROOT_PATH

/-- Splits a character list at newline characters (auxiliary for viewing a
rendered build-file as its list of lines). -/
def splitLinesAux : List Char → List Char → List (List Char)
  | [], acc => [acc.reverse]
  | c :: cs, acc =>
    if c = '\n' then acc.reverse :: splitLinesAux cs []
    else splitLinesAux cs (c :: acc)

/-- The lines of a string, in order. -/
def linesOf (s : String) : List String :=
  (splitLinesAux s.data []).map String.mk

/-- One decoded event of the `docker build` stream: a JSON object that may
carry an `error` key and may carry a `stream` key. -/
structure BuildEvent where
  error : Option String
  stream : Option String
deriving DecidableEq, Repr

/-- Result of consuming the build-event stream: forwarded log texts in
order, the raised error (if any), and how many events were pulled before
the loop stopped. -/
structure StreamRun where
  output : List String
  err : Option String
  consumed : Nat
deriving DecidableEq, Repr

/-- The `for line in client.build(...)` loop: an event whose object has an
`error` key raises `RuntimeError("Docker image build failure: %s" % ...)`
immediately, consuming no later event; otherwise `line.get("stream")` is
written to standard output when it is a non-empty text. -/
def runBuildStream : List BuildEvent → StreamRun
  | [] => ⟨[], none, 0⟩
  | e :: rest =>
    match e.error with
    | some msg => ⟨[], some ("Docker image build failure: " ++ msg), 1⟩
    | none =>
      let r := runBuildStream rest
      match e.stream with
      | some t =>
          if t == "" then ⟨r.output, r.err, r.consumed + 1⟩
          else ⟨t :: r.output, r.err, r.consumed + 1⟩
      | none => ⟨r.output, r.err, r.consumed + 1⟩

/-- The texts the loop forwards from a stretch of the stream that carries
no error key: the non-empty `stream` fields, in order. -/
def logTexts (l : List BuildEvent) : List String :=
  l.filterMap fun e =>
    match e.stream with
    | some t => if t == "" then none else some t
    | none => none

/-- Whether path `t` is a filesystem-tree ancestor-or-self of path `p`
(string-prefix at the character level); removing the tree rooted at `t`
removes every path it covers. -/
def underDir (t p : String) : Bool := t.data.isPrefixOf p.data

/-- Observable outcome of one `_build_docker_image` call: every path the
step creates (in creation order), the trees its scoped resources remove on
the way out, whether the build backend was invoked, the forwarded build
log, the raised error (if any), the number of stream events consumed, the
Dockerfile text written (when reached), and whether a push was started. -/
structure BuildStepResult where
  created : List String
  removedTrees : List String
  buildCalled : Bool
  output : List String
  err : Option String
  consumed : Nat
  dockerfileText : Option String
  pushAttempted : Bool
deriving DecidableEq, Repr

/-- `_build_docker_image`.  `ctxDir` is the fresh path handed out by
`tempfile.TemporaryDirectory()` and `dfPath` the fresh path of the
`tempfile.NamedTemporaryFile(mode="w+", delete=False)`; both live in the
system temporary directory, `dfPath` outside `ctxDir`.  `isDir` is the
`os.path.isdir(m_def)` answer for the host filesystem.  Control flow of the
source: the context directory is created and the framework tree
(`basename = "elasticdl"`) copied into it; the named temporary file is
created; if `m_def` is not a directory a `ValueError` propagates — the
`with` blocks remove the context-directory tree but the `delete=False`
file stays.  Otherwise the model tree is copied into the context, the
rendered template written, and the build stream consumed; any error
aborts the loop and propagates past the context-directory cleanup.  Only
after a fully successful build, and only when requested, is a push
started. -/
def buildDockerImage (ctxDir dfPath : String) (isDir : Bool)
    (m_def image_name : String) (push_image : Bool)
    (image_base extra_pypi_index : Option String)
    (events : List BuildEvent) : BuildStepResult :=
  if isDir then
    let r := runBuildStream events
    { created := [ctxDir, ctxDir ++ "/elasticdl", dfPath,
                  ctxDir ++ "/" ++ basename m_def],
      removedTrees := [ctxDir],
      buildCalled := true,
      output := r.output,
      err := r.err,
      consumed := r.consumed,
      dockerfileText := some (renderBuildFile image_base extra_pypi_index m_def),
      pushAttempted := r.err.isNone && push_image }
  else
    { created := [ctxDir, ctxDir ++ "/elasticdl", dfPath],
      removedTrees := [ctxDir],
      buildCalled := false,
      output := [],
      err := some ("Invalid model def: " ++ m_def),
      consumed := 0,
      dockerfileText := none,
      pushAttempted := false }

/-- The fixed leading portion of the managing-process argument vector
assembled by `_submit` (everything before the volume block).  The entry
following the `--worker_resource_limit` flag is, as in the source,
`args.worker_resource_request`. -/
def baseContainerArgs (a : Args) : List String :=
  ["-m", "elasticdl.python.master.main",
   "--job_name", a.job_name,
   "--worker_image", a.image_name,
   "--model_def", model_def_in_docker a.model_def,
   "--worker_resource_request", a.worker_resource_request,
   "--worker_resource_limit", a.worker_resource_request,
   "--namespace", a.namespace_,
   "--tensorboard_log_dir", a.tensorboard_log_dir,
   "--image_pull_policy", a.image_pull_policy,
   "--restart_policy", a.restart_policy]

/-- The message of the `ValueError` `_submit` raises on an incomplete
volume specification (the spec calls this failure `IncompleteVolumeSpec`). -/
def incompleteVolumeMsg : String :=
  "Not both of the parameters volume_name and mount_path are provided."

/-- The volume block of `_submit`: `all([volume_name, mount_path])`
appends the pair, `elif any([...])` raises the incomplete-volume
`ValueError`, and otherwise nothing is appended. -/
def volumeArgs (a : Args) : Except String (List String) :=
  if truthy a.volume_name && truthy a.mount_path then
    Except.ok ["--mount_path", a.mount_path.getD "",
               "--volume_name", a.volume_name.getD ""]
  else if truthy a.volume_name || truthy a.mount_path then
    Except.error incompleteVolumeMsg
  else
    Except.ok []

/-- `args.master_resource_limit if args.master_resource_limit else
args.master_resource_request`: Python truthiness, so both `None` and the
empty string fall back to the request. -/
def masterResourceLimit (a : Args) : String :=
  match a.master_resource_limit with
  | some s => if s == "" then a.master_resource_request else s
  | none => a.master_resource_request

/-- The structured `create_master` call handed to the cluster client. -/
structure LaunchRequest where
  job_name : String
  image_name : String
  resource_requests : String
  resource_limits : String
  pod_priority : Option String
  image_pull_policy : String
  volume_name : Option String
  mount_path : Option String
  restart_policy : String
  args : List String
deriving DecidableEq, Repr

/-- The request record built by the tail of `_submit`. -/
def mkRequest (a : Args) (ca : List String) : LaunchRequest :=
  { job_name := a.job_name,
    image_name := a.image_name,
    resource_requests := a.master_resource_request,
    resource_limits := masterResourceLimit a,
    pod_priority := a.master_pod_priority,
    image_pull_policy := a.image_pull_policy,
    volume_name := a.volume_name,
    mount_path := a.mount_path,
    restart_policy := a.restart_policy,
    args := ca }

/-- `_submit`: assembles the argument vector (fixed part, volume block,
then the verbatim passthrough `argv`), fails on an incomplete volume
specification, defaults the master resource limit, and issues the
`create_master` call. -/
def submit (a : Args) (argv : List String) : Except String LaunchRequest :=
  match volumeArgs a with
  | Except.error e => Except.error e
  | Except.ok va => Except.ok (mkRequest a (baseContainerArgs a ++ va ++ argv))

/-- Observable outcome of one `_train` invocation. -/
structure TrainResult where
  build : BuildStepResult
  submitCalled : Bool
  request : Option LaunchRequest
  err : Option String
deriving DecidableEq, Repr

/-- `_train`: runs `_build_docker_image` first; an exception there
propagates and `_submit` is never reached.  Otherwise `_submit` runs and
either raises or issues the cluster call. -/
def train (ctxDir dfPath : String) (isDir : Bool) (a : Args)
    (argv : List String) (events : List BuildEvent) : TrainResult :=
  let b := buildDockerImage ctxDir dfPath isDir a.model_def a.image_name
    a.push_image a.image_base a.extra_pypi_index events
  match b.err with
  | some e => { build := b, submitCalled := false, request := none, err := some e }
  | none =>
    match submit a argv with
    | Except.error e =>
        { build := b, submitCalled := true, request := none, err := some e }
    | Except.ok req =>
        { build := b, submitCalled := true, request := some req, err := none }

/-! ## Helper lemmas -/

/-- The accumulator of the `basenameChars` fold never contains the
separator. -/
lemma not_slash_mem_foldl (l : List Char) : ∀ acc : List Char, '/' ∉ acc →
    '/' ∉ l.foldl (fun acc c => if c = '/' then [] else acc ++ [c]) acc := by
  induction l with
  | nil => intro acc h; simpa using h
  | cons c cs ih =>
    intro acc h
    rw [List.foldl_cons]
    by_cases hc : c = '/'
    · rw [if_pos hc]; exact ih [] (List.not_mem_nil _)
    · rw [if_neg hc]
      refine ih _ ?_
      intro hmem
      rcases List.mem_append.mp hmem with h1 | h2
      · exact h h1
      · exact hc (List.mem_singleton.mp h2).symm

lemma slash_not_mem_basenameChars (l : List Char) : '/' ∉ basenameChars l :=
  not_slash_mem_foldl l [] (List.not_mem_nil _)

/-- A basename never starts with the separator. -/
lemma headIsSlash_basename (p : String) : headIsSlash (basename p) = false := by
  have hmem := slash_not_mem_basenameChars p.data
  unfold basename headIsSlash
  cases h : basenameChars p.data with
  | nil => simp [h]
  | cons c cs =>
    rw [h] at hmem
    simp only [h]
    exact beq_eq_false_iff_ne.mpr fun hc => hmem (hc ▸ List.mem_cons_self c cs)

/-- The in-image mapping always glues the fixed root, a fresh separator and
the basename. -/
lemma model_def_in_docker_eq (p : String) :
    model_def_in_docker p = "/model/" ++ basename p := by
  unfold model_def_in_docker pyJoin
  rw [headIsSlash_basename]
  have h2 : (MODEL_ROOT_PATH == "" || lastIsSlash MODEL_ROOT_PATH) = false := by
    decide
  rw [h2]
  simp only [Bool.false_eq_true, if_false]
  rfl

/-! ## Claims -/

/-- Concrete options exhibiting the worker-resource-limit slot: the limit
option differs from the request option. -/
def c1args : Args :=
  { model_def := "/tmp/mymodel", push_image := false, image_name := "foo:v1",
    image_base := none, job_name := "job1",
    master_resource_request := "cpu=0.1,memory=1024Mi",
    master_resource_limit := none,
    worker_resource_request := "cpu=1,memory=4096Mi",
    worker_resource_limit := "cpu=2,memory=8192Mi",
    master_pod_priority := none, volume_name := none, mount_path := none,
    image_pull_policy := "Always", restart_policy := "Never",
    extra_pypi_index := none, namespace_ := "default",
    tensorboard_log_dir := "" }

/-- C1: the argument vector does contain the worker-resource-request entry
followed by the worker-resource-limit entry in the fixed order, but the
entry following the `--worker_resource_limit` flag is always
`worker_resource_request`, never the `worker_resource_limit`
option supplied by the caller; at the concrete options `c1args` the slot holds the request value
and differs from the supplied limit value. -/
theorem worker_resource_limit_slot_c1 :
  (∀ a : Args,
    (baseContainerArgs a).get? 8 = some "--worker_resource_request" ∧
    (baseContainerArgs a).get? 9 = some a.worker_resource_request ∧
    (baseContainerArgs a).get? 10 = some "--worker_resource_limit" ∧
    (baseContainerArgs a).get? 11 = some a.worker_resource_request) ∧
  ((baseContainerArgs c1args).get? 11 = some "cpu=1,memory=4096Mi" ∧
   c1args.worker_resource_limit = "cpu=2,memory=8192Mi" ∧
   (baseContainerArgs c1args).get? 11 ≠ some c1args.worker_resource_limit) :=
  ⟨fun _ => ⟨rfl, rfl, rfl, rfl⟩, rfl, rfl, by decide⟩

/-- C3: neither template references the extra package index; the rendered
build-file text is identical for any two option structures that differ only
in `extra_pypi_index`, so no such pair renders different texts. -/
theorem extra_pypi_index_unused_c3 :
  (∀ (ib epi1 epi2 : Option String) (md : String),
      renderBuildFile ib epi1 md = renderBuildFile ib epi2 md) ∧
  renderBuildFile none (some "https://pypi.example.org/simple") "/tmp/mymodel"
    = renderBuildFile none none "/tmp/mymodel" :=
  ⟨fun _ _ _ _ => rfl, rfl⟩

/-- C4: both rendered templates contain the environment line
`ENV PYTHONPATH=/elasticdl:$/model` — `str.format` substitutes the
`MODEL_ROOT_PATH` field but the dollar sign written before it in the
template survives — and neither contains the line
`ENV PYTHONPATH=/elasticdl:/model` that the claim states. -/
theorem pythonpath_env_line_c4 :
  ("ENV PYTHONPATH=/elasticdl:$/model"
      ∈ linesOf (renderBuildFile (some "ubuntu:18.04") none "/tmp/mymodel") ∧
   "ENV PYTHONPATH=/elasticdl:/model"
      ∉ linesOf (renderBuildFile (some "ubuntu:18.04") none "/tmp/mymodel")) ∧
  ("ENV PYTHONPATH=/elasticdl:$/model"
      ∈ linesOf (renderBuildFile none none "/tmp/mymodel") ∧
   "ENV PYTHONPATH=/elasticdl:/model"
      ∉ linesOf (renderBuildFile none none "/tmp/mymodel")) := by
  decide

/-- C9: the in-image model path is the fixed root joined with the basename
of the model-def path; the mapping is deterministic and injective over
inputs with distinct basenames. -/
theorem model_def_in_docker_mapping_c9 :
  (∀ p, model_def_in_docker p = pyJoin MODEL_ROOT_PATH (basename p)) ∧
  (∀ p q, p = q → model_def_in_docker p = model_def_in_docker q) ∧
  (∀ p q, basename p ≠ basename q →
      model_def_in_docker p ≠ model_def_in_docker q) := by
  refine ⟨fun p => rfl, fun p q h => by rw [h], fun p q h hc => h ?_⟩
  rw [model_def_in_docker_eq p, model_def_in_docker_eq q] at hc
  have hd := congrArg String.data hc
  rw [String.data_append, String.data_append] at hd
  exact String.ext (List.append_cancel_left hd)

/-- Witness for C9 at concrete paths. -/
theorem model_def_in_docker_mapping_c9_witness :
  model_def_in_docker "/tmp/mymodel"
      = pyJoin MODEL_ROOT_PATH (basename "/tmp/mymodel") ∧
  model_def_in_docker "/tmp/mymodel" = model_def_in_docker "/tmp/mymodel" ∧
  model_def_in_docker "/tmp/a" ≠ model_def_in_docker "/tmp/b" :=
  ⟨model_def_in_docker_mapping_c9.1 "/tmp/mymodel",
   model_def_in_docker_mapping_c9.2.1 "/tmp/mymodel" "/tmp/mymodel" rfl,
   model_def_in_docker_mapping_c9.2.2 "/tmp/a" "/tmp/b" (by decide)⟩

lemma volumeArgs_one (a : Args)
    (h : truthy a.volume_name ≠ truthy a.mount_path) :
    volumeArgs a = Except.error incompleteVolumeMsg := by
  unfold volumeArgs
  cases hv : truthy a.volume_name <;> cases hm : truthy a.mount_path <;>
    simp [hv, hm] at h ⊢

lemma volumeArgs_both (a : Args) (hv : truthy a.volume_name = true)
    (hm : truthy a.mount_path = true) :
    volumeArgs a = Except.ok ["--mount_path", a.mount_path.getD "",
                              "--volume_name", a.volume_name.getD ""] := by
  unfold volumeArgs
  simp [hv, hm]

lemma volumeArgs_neither (a : Args) (hv : truthy a.volume_name = false)
    (hm : truthy a.mount_path = false) : volumeArgs a = Except.ok [] := by
  unfold volumeArgs
  simp [hv, hm]

lemma submit_error_of_one (a : Args) (argv : List String)
    (h : truthy a.volume_name ≠ truthy a.mount_path) :
    submit a argv = Except.error incompleteVolumeMsg := by
  rw [submit, volumeArgs_one a h]

/-- C6: the volume-pairing trichotomy of `_submit`.  "Present" is Python
truthiness (argparse yields `None` for an absent flag, and the empty string
is likewise falsy): exactly one present fails with the incomplete-volume
error; both present put the mount path and volume name into the argument
vector and into the structured request; both absent add nothing to the
vector. -/
theorem volume_pairing_trichotomy_c6 (a : Args) (argv : List String) :
  ((truthy a.volume_name ≠ truthy a.mount_path) →
      submit a argv = Except.error incompleteVolumeMsg) ∧
  (truthy a.volume_name = true → truthy a.mount_path = true →
      ∃ req, submit a argv = Except.ok req ∧
        req.args = baseContainerArgs a ++
          ["--mount_path", a.mount_path.getD "",
           "--volume_name", a.volume_name.getD ""] ++ argv ∧
        "--mount_path" ∈ req.args ∧ a.mount_path.getD "" ∈ req.args ∧
        "--volume_name" ∈ req.args ∧ a.volume_name.getD "" ∈ req.args ∧
        req.mount_path = a.mount_path ∧ req.volume_name = a.volume_name) ∧
  (truthy a.volume_name = false → truthy a.mount_path = false →
      ∃ req, submit a argv = Except.ok req ∧
        req.args = baseContainerArgs a ++ argv) := by
  refine ⟨submit_error_of_one a argv, fun hv hm => ?_, fun hv hm => ?_⟩
  · rw [submit, volumeArgs_both a hv hm]
    refine ⟨_, rfl, rfl, ?_, ?_, ?_, ?_, rfl, rfl⟩ <;>
      simp [mkRequest, List.mem_append]
  · rw [submit, volumeArgs_neither a hv hm]
    exact ⟨_, rfl, by simp [mkRequest]⟩

/-- Concrete options giving exactly one volume parameter. -/
def c6one : Args := { c1args with volume_name := some "nfs1" }

/-- Concrete options giving both volume parameters. -/
def c6both : Args :=
  { c1args with volume_name := some "nfs1", mount_path := some "/data" }

/-- Concrete options giving neither volume parameter. -/
def c6none : Args := c1args

/-- Witness for C6 exercising all three branches at concrete options. -/
theorem volume_pairing_trichotomy_c6_witness :
  submit c6one [] = Except.error incompleteVolumeMsg ∧
  (∃ req, submit c6both [] = Except.ok req ∧
    req.args = baseContainerArgs c6both ++
      ["--mount_path", c6both.mount_path.getD "",
       "--volume_name", c6both.volume_name.getD ""] ++ [] ∧
    "--mount_path" ∈ req.args ∧ c6both.mount_path.getD "" ∈ req.args ∧
    "--volume_name" ∈ req.args ∧ c6both.volume_name.getD "" ∈ req.args ∧
    req.mount_path = c6both.mount_path ∧ req.volume_name = c6both.volume_name) ∧
  (∃ req, submit c6none [] = Except.ok req ∧
    req.args = baseContainerArgs c6none ++ []) :=
  ⟨(volume_pairing_trichotomy_c6 c6one []).1 (by decide),
   (volume_pairing_trichotomy_c6 c6both []).2.1 (by decide) (by decide),
   (volume_pairing_trichotomy_c6 c6none []).2.2 (by decide) (by decide)⟩

/-- C7: the master resource limit of the structured request defaults to the
master resource request when the limit option is unset (argparse `None`; as
in the source, a falsy empty string behaves the same), and a non-empty
limit value is used unchanged. -/
theorem master_resource_limit_default_c7 (a : Args) (argv : List String) :
  (a.master_resource_limit = none →
      masterResourceLimit a = a.master_resource_request) ∧
  (∀ s, a.master_resource_limit = some s → s ≠ "" →
      masterResourceLimit a = s) ∧
  (∀ req, submit a argv = Except.ok req →
      req.resource_limits = masterResourceLimit a ∧
      req.resource_requests = a.master_resource_request) := by
  refine ⟨fun h => ?_, fun s hs hne => ?_, fun req h => ?_⟩
  · unfold masterResourceLimit
    rw [h]
  · unfold masterResourceLimit
    rw [hs]
    simp [hne]
  · rw [submit] at h
    cases hva : volumeArgs a with
    | error e =>
      simp only [hva] at h
      exact Except.noConfusion h
    | ok va =>
      simp only [hva, Except.ok.injEq] at h
      subst h
      exact ⟨rfl, rfl⟩

/-- Concrete options with the master resource limit set to a non-empty
value. -/
def c7set : Args := { c1args with master_resource_limit := some "cpu=1,memory=2048Mi" }

/-- Witness for C7: with the limit unset the concrete request carries the
request string as its limit; with a non-empty limit set it is unchanged. -/
theorem master_resource_limit_default_c7_witness :
  masterResourceLimit c1args = c1args.master_resource_request ∧
  masterResourceLimit c7set = "cpu=1,memory=2048Mi" ∧
  (∃ req, submit c1args [] = Except.ok req ∧
    req.resource_limits = masterResourceLimit c1args ∧
    req.resource_requests = c1args.master_resource_request) :=
  ⟨(master_resource_limit_default_c7 c1args []).1 rfl,
   (master_resource_limit_default_c7 c7set []).2.1 _ rfl (by decide),
   ⟨_, rfl, (master_resource_limit_default_c7 c1args []).2.2 _ rfl⟩⟩

/-- Flag token `flag` occurs somewhere in `l` immediately followed by the
value `v`. -/
def adjacentPair (l : List String) (flag v : String) : Prop :=
  ∃ i, l.get? i = some flag ∧ l.get? (i + 1) = some v

/-- C10: every argument vector handed to the cluster client starts with the
two fixed entries `-m`, `elasticdl.python.master.main`, and each
first-class field value sits immediately after its flag token (the worker
resource values being those the code emits: the request value after both
worker-resource flags), with the volume pair included when both are
present. -/
theorem container_args_structure_c10 (a : Args) (argv : List String)
    (req : LaunchRequest) (h : submit a argv = Except.ok req) :
  req.args.take 2 = ["-m", "elasticdl.python.master.main"] ∧
  adjacentPair req.args "--job_name" a.job_name ∧
  adjacentPair req.args "--worker_image" a.image_name ∧
  adjacentPair req.args "--model_def" (model_def_in_docker a.model_def) ∧
  adjacentPair req.args "--worker_resource_request" a.worker_resource_request ∧
  adjacentPair req.args "--namespace" a.namespace_ ∧
  adjacentPair req.args "--tensorboard_log_dir" a.tensorboard_log_dir ∧
  adjacentPair req.args "--image_pull_policy" a.image_pull_policy ∧
  adjacentPair req.args "--restart_policy" a.restart_policy ∧
  (truthy a.volume_name = true → truthy a.mount_path = true →
    adjacentPair req.args "--mount_path" (a.mount_path.getD "") ∧
    adjacentPair req.args "--volume_name" (a.volume_name.getD "")) := by
  rw [submit] at h
  cases hva : volumeArgs a with
  | error e =>
    simp only [hva] at h
    exact Except.noConfusion h
  | ok va =>
    simp only [hva, Except.ok.injEq] at h
    subst h
    refine ⟨rfl, ⟨2, rfl, rfl⟩, ⟨4, rfl, rfl⟩, ⟨6, rfl, rfl⟩, ⟨8, rfl, rfl⟩,
      ⟨12, rfl, rfl⟩, ⟨14, rfl, rfl⟩, ⟨16, rfl, rfl⟩, ⟨18, rfl, rfl⟩,
      fun hv hm => ?_⟩
    have hb := volumeArgs_both a hv hm
    rw [hva] at hb
    injection hb with hb2
    subst hb2
    exact ⟨⟨20, rfl, rfl⟩, ⟨22, rfl, rfl⟩⟩

/-- Witness for C10 at concrete options with both volume parameters and a
passthrough argument. -/
theorem container_args_structure_c10_witness :
  ∃ req, submit c6both ["--num_workers", "2"] = Except.ok req ∧
    req.args.take 2 = ["-m", "elasticdl.python.master.main"] ∧
    adjacentPair req.args "--job_name" c6both.job_name ∧
    adjacentPair req.args "--mount_path" (c6both.mount_path.getD "") ∧
    adjacentPair req.args "--volume_name" (c6both.volume_name.getD "") := by
  refine ⟨_, rfl, ?_, ?_, ?_, ?_⟩
  · exact (container_args_structure_c10 c6both ["--num_workers", "2"] _ rfl).1
  · exact (container_args_structure_c10 c6both ["--num_workers", "2"] _ rfl).2.1
  · exact ((container_args_structure_c10 c6both ["--num_workers", "2"] _
      rfl).2.2.2.2.2.2.2.2.2 rfl rfl).1
  · exact ((container_args_structure_c10 c6both ["--num_workers", "2"] _
      rfl).2.2.2.2.2.2.2.2.2 rfl rfl).2

lemma runBuildStream_no_error (events : List BuildEvent)
    (h : ∀ x ∈ events, x.error = none) : (runBuildStream events).err = none := by
  induction events with
  | nil => rfl
  | cons e rest ih =>
    have he : e.error = none := h e (List.mem_cons_self _ _)
    have ih' := ih fun x hx => h x (List.mem_cons_of_mem _ hx)
    simp only [runBuildStream, he]
    cases hs : e.stream with
    | none => simpa using ih'
    | some t =>
      cases ht : (t == "") <;> simp [ht, ih']

/-- Consuming a stream whose first error-keyed event follows an error-free
stretch: the non-empty texts of the stretch are forwarded in order, the
formatted error of that event is raised, and exactly the stretch plus that
one event is consumed. -/
lemma runBuildStream_error_decomp (pre post : List BuildEvent) (e : BuildEvent)
    (msg : String) (hpre : ∀ x ∈ pre, x.error = none)
    (he : e.error = some msg) :
    runBuildStream (pre ++ e :: post) =
      ⟨logTexts pre, some ("Docker image build failure: " ++ msg),
       pre.length + 1⟩ := by
  induction pre with
  | nil =>
    simp only [List.nil_append, runBuildStream, he]
    rfl
  | cons x xs ih =>
    have hx : x.error = none := hpre x (List.mem_cons_self _ _)
    have ih' := ih fun y hy => hpre y (List.mem_cons_of_mem _ hy)
    simp only [List.cons_append, runBuildStream, hx, ih']
    cases hs : x.stream with
    | none => simp [logTexts, List.filterMap_cons, hs, ih']
    | some t =>
      by_cases ht : t = "" <;>
        simp [logTexts, List.filterMap_cons, hs, ht, ih']

lemma underDir_refl (p : String) : underDir p p = true := by
  simp [underDir, List.isPrefixOf_iff_prefix]

lemma underDir_append (p s : String) : underDir p (p ++ s) = true := by
  simp [underDir, String.data_append, List.isPrefixOf_iff_prefix]

lemma underDir_append₂ (p s t : String) : underDir p (p ++ s ++ t) = true := by
  simp [underDir, String.data_append, List.isPrefixOf_iff_prefix,
    List.append_assoc]

/-- C5 (amended): on every exit path of the build step the staging
directory tree is removed, and every path the step creates lies under the
staging directory — except the rendered build-file, which is created at a
path outside the staging directory and is covered by none of the removals,
so it survives the build step. -/
theorem build_context_cleanup_c5 (ctxDir dfPath : String) (isDir : Bool)
    (m_def image_name : String) (push_image : Bool)
    (ib epi : Option String) (events : List BuildEvent)
    (hdf : underDir ctxDir dfPath = false) :
  let r := buildDockerImage ctxDir dfPath isDir m_def image_name push_image
    ib epi events
  r.removedTrees = [ctxDir] ∧
  dfPath ∈ r.created ∧
  (∀ p ∈ r.created, p = dfPath ∨ underDir ctxDir p = true) ∧
  (∀ t ∈ r.removedTrees, underDir t dfPath = false) := by
  dsimp only
  cases isDir with
  | true =>
    refine ⟨rfl, by simp [buildDockerImage], ?_, ?_⟩
    · intro p hp
      simp only [buildDockerImage, if_true, List.mem_cons, List.not_mem_nil,
        or_false] at hp
      rcases hp with h | h | h | h
      · exact Or.inr (h ▸ underDir_refl ctxDir)
      · exact Or.inr (h ▸ underDir_append ctxDir "/elasticdl")
      · exact Or.inl h
      · exact Or.inr (h ▸ underDir_append₂ ctxDir "/" (basename m_def))
    · intro t ht
      simp only [buildDockerImage, if_true, List.mem_cons, List.not_mem_nil,
        or_false] at ht
      exact ht ▸ hdf
  | false =>
    refine ⟨rfl, by simp [buildDockerImage], ?_, ?_⟩
    · intro p hp
      simp only [buildDockerImage, Bool.false_eq_true, if_false, List.mem_cons,
        List.not_mem_nil, or_false] at hp
      rcases hp with h | h | h
      · exact Or.inr (h ▸ underDir_refl ctxDir)
      · exact Or.inr (h ▸ underDir_append ctxDir "/elasticdl")
      · exact Or.inl h
    · intro t ht
      simp only [buildDockerImage, Bool.false_eq_true, if_false, List.mem_cons,
        List.not_mem_nil, or_false] at ht
      exact ht ▸ hdf

/-- Witness for C5 (amended) at concrete paths, on a successful build. -/
theorem build_context_cleanup_c5_witness :
  (let r := buildDockerImage "/tmp/ctx2" "/tmp/df2" true "/tmp/mymodel"
      "foo:v1" true none none [⟨none, some "step"⟩]
   r.removedTrees = ["/tmp/ctx2"] ∧
   "/tmp/df2" ∈ r.created ∧
   (∀ p ∈ r.created, p = "/tmp/df2" ∨ underDir "/tmp/ctx2" p = true) ∧
   (∀ t ∈ r.removedTrees, underDir t "/tmp/df2" = false)) :=
  build_context_cleanup_c5 "/tmp/ctx2" "/tmp/df2" true "/tmp/mymodel"
    "foo:v1" true none none [⟨none, some "step"⟩] (by decide)

/-- Counterexample for C5 as claimed: on a fully successful build at these
concrete inputs, the rendered build-file path is among the paths created
for the build and is covered by none of the removed trees — a file created
for the build survives the build step. -/
theorem buildfile_survives_c5_counterexample :
  (let r := buildDockerImage "/tmp/ctx0" "/tmp/df0" true "/tmp/mymodel"
      "foo:v1" false none none []
   "/tmp/df0" ∈ r.created ∧ r.err = none ∧
   (∀ t ∈ r.removedTrees, underDir t "/tmp/df0" = false)) := by
  decide

/-- C8: when the build stream has an error-keyed event, every non-empty log
text before the first such event is forwarded in order, the call fails with
the formatted build-failure message of that event, no later event is
consumed, and neither a push nor the cluster submission is attempted. -/
theorem build_stream_error_abort_c8 (ctxDir dfPath : String) (a : Args)
    (argv : List String) (pre post : List BuildEvent) (e : BuildEvent)
    (msg : String) (hpre : ∀ x ∈ pre, x.error = none)
    (he : e.error = some msg) :
  let r := train ctxDir dfPath true a argv (pre ++ e :: post)
  r.build.output = logTexts pre ∧
  r.err = some ("Docker image build failure: " ++ msg) ∧
  r.build.consumed = pre.length + 1 ∧
  r.build.pushAttempted = false ∧
  r.submitCalled = false ∧
  r.request = none := by
  have hrun := runBuildStream_error_decomp pre post e msg hpre he
  dsimp only
  simp [train, buildDockerImage, hrun]

/-- The error-free stretch of the C8 witness stream: two log lines. -/
def c8pre : List BuildEvent := [⟨none, some "Step 1/4"⟩, ⟨none, some "Step 2/4"⟩]

/-- Witness for C8: two log lines, then an error event, then one more
event that is never consumed. -/
theorem build_stream_error_abort_c8_witness :
  (let r := train "/tmp/ctx3" "/tmp/df3" true c1args []
      (c8pre ++ (⟨some "boom", none⟩ : BuildEvent) :: [⟨none, some "later"⟩])
   r.build.output = logTexts c8pre ∧
   r.err = some ("Docker image build failure: " ++ "boom") ∧
   r.build.consumed = c8pre.length + 1 ∧
   r.build.pushAttempted = false ∧
   r.submitCalled = false ∧
   r.request = none) :=
  build_stream_error_abort_c8 "/tmp/ctx3" "/tmp/df3" c1args []
    c8pre [⟨none, some "later"⟩] ⟨some "boom", none⟩ "boom" (by decide) rfl

/-- C2 (amended): with exactly one of the volume parameters given, the
train command does fail with the incomplete-volume error, but only inside
the submit step, after the image build has already been attempted (and, on
an error-free stream, completed). -/
theorem volume_check_after_build_c2 (ctxDir dfPath : String) (a : Args)
    (argv : List String) (events : List BuildEvent)
    (hev : ∀ x ∈ events, x.error = none)
    (hone : truthy a.volume_name ≠ truthy a.mount_path) :
  let r := train ctxDir dfPath true a argv events
  r.err = some incompleteVolumeMsg ∧
  r.build.buildCalled = true ∧
  r.submitCalled = true := by
  have herr := runBuildStream_no_error events hev
  have hsub := submit_error_of_one a argv hone
  dsimp only
  simp [train, buildDockerImage, herr, hsub]

/-- Witness for C2 (amended) at concrete inputs. -/
theorem volume_check_after_build_c2_witness :
  (let r := train "/tmp/ctx4" "/tmp/df4" true c6one ["-x"]
      [⟨none, some "ok"⟩]
   r.err = some incompleteVolumeMsg ∧
   r.build.buildCalled = true ∧
   r.submitCalled = true) :=
  volume_check_after_build_c2 "/tmp/ctx4" "/tmp/df4" c6one ["-x"]
    [⟨none, some "ok"⟩] (by decide) (by decide)

/-- Counterexample for C2 as claimed: with only `volume_name` given, the
command does fail with the incomplete-volume error, yet the build backend
was invoked first — the validation does not precede the build side
effect. -/
theorem volume_check_before_build_c2_counterexample :
  (let r := train "/tmp/ctx0" "/tmp/df0" true c6one [] []
   r.err = some incompleteVolumeMsg ∧ r.build.buildCalled = true) := by
  decide

end ElasticDL
